import Mathlib

/-!
Verification of `check_scmd.py`, a Nagios/Icinga probe for the SCMD
(GetCertificate) SOAP service.

The probe is shallowly embedded below.  Pure computations (the threshold
evaluation of `check`, the line formatting of `output`) become Lean
functions; the effectful parts are made explicit:

* printing a line and calling `sys.exit(state)` is the `PyResult.exited`
  outcome (in Python, `sys.exit` raises `SystemExit state`);
* a Python exception escaping a call is the `PyResult.raised` outcome,
  carrying the text that `str(sys.exc_info())` would yield for it (that text
  contains the exception's description);
* the external libraries `pem` (block splitting) and `OpenSSL.crypto`
  (certificate decoding) are supplied as function parameters: `pemParse`
  models `pem.parse` and `load` models `crypto.load_certificate`, returning
  `none` where the library would raise;
* `time.time()` samples are passed in as rational numbers (`init_time` is the
  sample taken at the first line of `main`, `now` the sample taken inside
  `check`).

Python's `round(x, 5)` on floats uses binary floating point and
round-half-to-even; the model `round5` rounds an exact rational to 5 decimal
places, which agrees except at exact half-way ties, and `q5str` renders such
a 5-decimal rational the way `str` renders the corresponding float.
-/

/-- The single-quote character, used by `output` around performance-data keys. -/
def squote : String := (Char.ofNat 39).toString

/-- `strStarts p s` is true when the text of `s` begins with the text of `p`. -/
def strStarts (p s : String) : Bool := p.data.isPrefixOf s.data

/-- Python `round(x, 5)`: the nearest multiple of `1/100000`. -/
def round5 (x : ℚ) : ℚ := (round (x * 100000) : ℤ) / 100000

/-- Drop trailing decimal zeros from a fractional part `f` written with `d + 1`
digits, keeping at least one digit; returns the remaining value and digit
count.  Used to mimic how `str` prints a float such as `2.0` or `2.00013`. -/
def stripZeros : ℕ → ℕ → ℕ × ℕ
  | f, 0 => (f, 1)
  | f, d + 1 => if f % 10 = 0 ∧ d ≠ 0 then stripZeros (f / 10) d else (f, d + 1)

/-- Left-pad a digit string with zeros to width `n`. -/
def zeroPad (n : ℕ) (s : String) : String :=
  String.mk (List.replicate (n - s.length) (Char.ofNat 48)) ++ s

/-- Render a rational that is an exact multiple of `1/100000` the way Python's
`str` renders the float `round(x, 5)` (integer part, a dot, and the fractional
digits with trailing zeros removed but at least one digit shown). -/
def q5str (x : ℚ) : String :=
  let n : ℤ := round (x * 100000)
  let sign := if n < 0 then "-" else ""
  let ip := n.natAbs / 100000
  let fp := n.natAbs % 100000
  let t := stripZeros fp 5
  sign ++ toString ip ++ "." ++ zeroPad t.2 (toString t.1)

/-- Subject name of an X.509 certificate as exposed by `OpenSSL`:
`get_subject().CN` is `None` when the subject carries no common name. -/
structure SubjectName where
  CN : Option String
deriving DecidableEq

/-- A decoded certificate (`OpenSSL.crypto.X509`); the probe only ever reads
the subject. -/
structure Certificate where
  subject : SubjectName
deriving DecidableEq

/-- Outcome of one Python execution path of the probe:
`exited line state` means a line was printed and `sys.exit(state)` raised
`SystemExit state`; `raised excInfo` means an exception escaped, `excInfo`
being the text `str(sys.exc_info())` would show for it. -/
inductive PyResult where
  | exited (line : String) (state : ℤ)
  | raised (excInfo : String)
deriving DecidableEq

/-- What `output` produces when the state is valid: the printed plugin line
and the state passed to `sys.exit`. -/
structure Printed where
  line : String
  state : ℤ
deriving DecidableEq

/-- The part of `output` (lines 172-183) that runs after the level name is
chosen: append `" - "`, then `name: label`, then the optional extra lines,
then the optional performance-data block. -/
def outputRest (pluginoutput : String) (label : String) (lines : List String)
    (perfdata : List (String × ℚ)) (name : String) : String :=
  let p1 := pluginoutput ++ " - " ++ (name ++ ": " ++ label)
  let p2 := if lines ≠ [] then p1 ++ " - " ++ String.intercalate " " lines else p1
  if perfdata ≠ [] then
    p2 ++ "|" ++ String.intercalate " "
      (perfdata.map fun kv => squote ++ kv.1 ++ squote ++ "=" ++ q5str kv.2)
  else p2

/-- Model of `output(label, state=0, lines=None, perfdata=None, name='scmd')`
(lines 153-186).  The `elif` chain maps 0/1/2/3 to the level name; any other
state raises `RuntimeError` before anything is printed (`Except.error`).  On a
valid state the line is printed and `sys.exit(state)` is called. -/
def output (label : String) (state : ℤ) (lines : List String)
    (perfdata : List (String × ℚ)) (name : String) : Except String Printed :=
  if state = 0 then .ok ⟨outputRest "OK" label lines perfdata name, state⟩
  else if state = 1 then .ok ⟨outputRest "WARNING" label lines perfdata name, state⟩
  else if state = 2 then .ok ⟨outputRest "CRITICAL" label lines perfdata name, state⟩
  else if state = 3 then .ok ⟨outputRest "UNKNOWN" label lines perfdata name, state⟩
  else .error "ERROR: State programming error."

/-- Modelled from the spec (section 4.4), for the refinement comparison of the
output format: the line is `<LEVELNAME> - <name>: <label>`, optionally followed
by `" - "` plus the space-joined extra lines, optionally followed by `"|"`
plus the space-joined single-quoted `key=value` pairs.  This definition follows
the specification's words; the C7 theorem compares it with `output`, which is
translated from the source. -/
def specReportLine (levelname label name : String) (lines : List String)
    (perfdata : List (String × ℚ)) : String :=
  levelname ++ " - " ++ name ++ ": " ++ label ++
  (if lines = [] then "" else " - " ++ String.intercalate " " lines) ++
  (if perfdata = [] then ""
   else "|" ++ String.intercalate " "
     (perfdata.map fun kv => squote ++ kv.1 ++ squote ++ "=" ++ q5str kv.2))

/-- A call of `output` with the default `lines=[]` and `name='scmd'`, seen as
a Python outcome: a `RuntimeError` from `output` becomes a raised exception. -/
def pyOutput (label : String) (state : ℤ) (perfdata : List (String × ℚ)) : PyResult :=
  match output label state [] perfdata "scmd" with
  | .ok p => .exited p.line p.state
  | .error m => .raised m

/-- The threshold evaluation of `check` (lines 253-258): `status = 0`, set to
`2` when `time_seconds > critical`, else to `1` when
`time_seconds > warning`. -/
def checkStatus (time_seconds : ℚ) (warning critical : ℤ) : ℤ :=
  if time_seconds > (critical : ℚ) then 2
  else if time_seconds > (warning : ℚ) then 1
  else 0

/-- Model of `check(result, init_time, warning, critical)` (lines 229-263).
`pemParse` models `pem.parse` (list of PEM blocks), `load` models
`crypto.load_certificate` (`none` where the library raises), `now` is the
value of `time.time()` sampled at line 254.  The source indexes and loads the
blocks in the order `certs[0]` (user), `certs[2]` (ca), `certs[1]` (root)
while building `certs_chain`; an out-of-range index raises `IndexError` and a
malformed block raises an OpenSSL error; a subject without CN makes the
string concatenation at line 259 raise `TypeError`. -/
def check (pemParse : String → List String) (load : String → Option Certificate)
    (result : Option String) (now init_time : ℚ) (warning critical : ℤ) : PyResult :=
  match result with
  | none => pyOutput "Impossível obter certificado" 2 []
  | some r =>
    let certs := pemParse r
    match certs.get? 0 with
    | none => .raised "IndexError: list index out of range"
    | some b0 =>
      match load b0 with
      | none => .raised "OpenSSL.crypto.Error"
      | some user =>
        match certs.get? 2 with
        | none => .raised "IndexError: list index out of range"
        | some b2 =>
          match load b2 with
          | none => .raised "OpenSSL.crypto.Error"
          | some ca =>
            match certs.get? 1 with
            | none => .raised "IndexError: list index out of range"
            | some b1 =>
              match load b1 with
              | none => .raised "OpenSSL.crypto.Error"
              | some root =>
                let time_seconds := round5 (now - init_time)
                let status := checkStatus time_seconds warning critical
                match user.subject.CN, ca.subject.CN, root.subject.CN with
                | some ucn, some cacn, some rcn =>
                  pyOutput ("Certificado emitido para \"" ++ ucn ++
                    "\" pela Entidade de Certificação \"" ++ cacn ++
                    "\" na hierarquia do \"" ++ rcn ++ "\"") status
                    [("time_seconds", time_seconds)]
                | _, _, _ =>
                  .raised "TypeError: can only concatenate str (not NoneType) to str"

/-- Lines 195-197: the SIGALRM handler is registered with
`timeout = args.timeout + 5` and `signal.alarm(args.timeout + 5)` arms the
hard deadline at that many seconds. -/
def alarmSeconds (timeout : ℤ) : ℤ := timeout + 5

/-- Model of `handle_sigalrm` (lines 149-150): report
`'Plugin timed out after %d seconds' % timeout` with state 3. -/
def handle_sigalrm (timeout : ℤ) : PyResult :=
  pyOutput ("Plugin timed out after " ++ toString timeout ++ " seconds") 3 []

/-- Model of the `__main__` guard (lines 266-273) as a map from the outcome of
`main()` to the pair (printed line, process exit status).

* `except SystemExit: pass` swallows the `SystemExit` that `output` raises
  via `sys.exit(state)`; the script then falls off the end, so the
  interpreter exits with status 0 (the printed line is kept).
* the bare `except:` catches every other exception and calls
  `output("Error: %s" % str(sys.exc_info()), 2)`; the `SystemExit 2` raised
  by that call is not caught by anything, so the interpreter exits with
  status 2 after printing the line.
* if `output` itself raised there (impossible: 2 is a valid state) the
  interpreter would die on an unhandled exception with a traceback and
  status 1. -/
def mainGuard (r : PyResult) : String × ℤ :=
  match r with
  | .exited line _ => (line, 0)
  | .raised excInfo =>
    match output ("Error: " ++ excInfo) 2 [] [] "scmd" with
    | .ok p => (p.line, p.state)
    | .error m => (m, 1)

/-- Wall-clock instants of one completed run.  The code samples only
`tMainStart` (line 191: `init = time.time()`, before argument parsing and
before the SOAP client and its WSDL download are set up) and `tInCheck`
(line 254, after the certificate chain has been parsed); `tBeforeFetch` and
`tAfterFetch` are the instants just before and just after the
`GetCertificate` call at line 201, which the code never samples. -/
structure Clock where
  tMainStart : ℚ
  tBeforeFetch : ℚ
  tAfterFetch : ℚ
  tInCheck : ℚ

/-- Model of the completed-fetch continuation of `main` (line 201): `check`
receives `init` sampled at the entry of `main` and itself samples
`time.time()` at line 254. -/
def mainCompleted (pemParse : String → List String) (load : String → Option Certificate)
    (fetchResult : Option String) (clk : Clock) (warning critical : ℤ) : PyResult :=
  check pemParse load fetchResult clk.tInCheck clk.tMainStart warning critical

/-- A concrete three-block parse used by the witnesses: the upstream bundle
order is user, root, ca. -/
def demoParse : String → List String := fun _ => ["USERPEM", "ROOTPEM", "CAPEM"]

/-- A concrete certificate loader used by the witnesses. -/
def demoLoad : String → Option Certificate := fun s =>
  if s = "USERPEM" then some ⟨⟨some "Jane Doe"⟩⟩
  else if s = "ROOTPEM" then some ⟨⟨some "ROOT CA"⟩⟩
  else some ⟨⟨some "ISSUING CA"⟩⟩

/-- A second concrete parse, with different certificate contents, used to
exhibit that contents do not influence the status. -/
def altParse : String → List String := fun _ => ["A", "B", "C"]

/-- A second concrete loader whose three certificates all have subject `X`. -/
def altLoad : String → Option Certificate := fun _ => some ⟨⟨some "X"⟩⟩

/-! ### Helper lemmas -/

/-- The character list of an appended string is the appended character lists. -/
theorem str_data_append (a b : String) : (a ++ b).data = a.data ++ b.data := rfl

/-- The empty string has no characters. -/
theorem str_data_nil : ("" : String).data = [] := rfl

/-- Strings with equal character lists are equal. -/
theorem str_ext {a b : String} (h : a.data = b.data) : a = b := congrArg String.mk h

/-- The threshold evaluation can only produce 0, 1 or 2. -/
theorem checkStatus_cases (e : ℚ) (w c : ℤ) :
    checkStatus e w c = 0 ∨ checkStatus e w c = 1 ∨ checkStatus e w c = 2 := by
  unfold checkStatus
  split_ifs <;> simp

/-! ### C1: threshold evaluation -/

/-- C1: the threshold evaluation in `check` yields CRITICAL (2) iff the elapsed
time exceeds the critical threshold, WARNING (1) iff it does not exceed
critical but exceeds warning, and OK (0) otherwise; both comparisons are
strict, so an elapsed time equal to the warning threshold (and not above
critical) yields OK and one equal to the critical threshold (with
warning < critical) yields WARNING.  `checkStatus` is a function of exactly
`e`, `w` and `c`, so no other input affects the decision. -/
theorem c1_threshold_eval (e : ℚ) (w c : ℤ) :
    (checkStatus e w c = 2 ↔ (c : ℚ) < e) ∧
    (checkStatus e w c = 1 ↔ e ≤ (c : ℚ) ∧ (w : ℚ) < e) ∧
    (checkStatus e w c = 0 ↔ e ≤ (c : ℚ) ∧ e ≤ (w : ℚ)) ∧
    (e = (w : ℚ) → e ≤ (c : ℚ) → checkStatus e w c = 0) ∧
    (e = (c : ℚ) → (w : ℚ) < (c : ℚ) → checkStatus e w c = 1) := by
  unfold checkStatus
  split_ifs with hcrit hwarn
  · exact ⟨iff_of_true rfl hcrit,
      iff_of_false (by norm_num) fun h => absurd h.1 (not_le_of_gt hcrit),
      iff_of_false (by norm_num) fun h => absurd h.1 (not_le_of_gt hcrit),
      fun _ hle => absurd hle (not_le_of_gt hcrit),
      fun he _ => absurd he.le (not_le_of_gt hcrit)⟩
  · exact ⟨iff_of_false (by norm_num) hcrit,
      iff_of_true rfl ⟨not_lt.mp hcrit, hwarn⟩,
      iff_of_false (by norm_num) fun h => absurd hwarn (not_lt.mpr h.2),
      fun he _ => absurd hwarn (by rw [he]; exact lt_irrefl _),
      fun _ _ => rfl⟩
  · exact ⟨iff_of_false (by norm_num) hcrit,
      iff_of_false (by norm_num) fun h => absurd h.2 hwarn,
      iff_of_true rfl ⟨not_lt.mp hcrit, not_lt.mp hwarn⟩,
      fun _ _ => rfl,
      fun he hwc => absurd (by rw [he]; exact hwc) hwarn⟩

/-- C1 witness: with thresholds warning 3 and critical 6, an elapsed time of
exactly 3 is OK and an elapsed time of exactly 6 is WARNING. -/
theorem c1_threshold_eval_witness :
    checkStatus 3 3 6 = 0 ∧ checkStatus 6 3 6 = 1 :=
  ⟨(c1_threshold_eval 3 3 6).2.2.2.1 (by norm_num) (by norm_num),
   (c1_threshold_eval 6 3 6).2.2.2.2 (by norm_num) (by norm_num)⟩

/-! ### C9: invalid status levels -/

/-- C9: `output` raises `RuntimeError` — before printing anything — exactly
when the numeric status level is not one of 0, 1, 2, 3. -/
theorem c9_invalid_state (label name : String) (lines : List String)
    (perfdata : List (String × ℚ)) (state : ℤ) :
    output label state lines perfdata name = .error "ERROR: State programming error." ↔
      state ≠ 0 ∧ state ≠ 1 ∧ state ≠ 2 ∧ state ≠ 3 := by
  unfold output
  split_ifs with h0 h1 h2 h3 <;> simp_all

/-! ### C7: reporter line format -/

/-- C7: for every label, extra-lines list, performance mapping and name, and
each valid state 0/1/2/3, `output` produces exactly the line
`<LEVELNAME> - <name>: <label>`, followed by `" - "` plus the space-joined
extra lines iff the list is non-empty, followed by `"|"` plus the space-joined
quoted `key=value` pairs iff the mapping is non-empty, with level names
OK / WARNING / CRITICAL / UNKNOWN, and exits with that state. -/
theorem c7_reporter_format (label name : String) (lines : List String)
    (perfdata : List (String × ℚ)) :
    output label 0 lines perfdata name =
      .ok ⟨specReportLine "OK" label name lines perfdata, 0⟩ ∧
    output label 1 lines perfdata name =
      .ok ⟨specReportLine "WARNING" label name lines perfdata, 1⟩ ∧
    output label 2 lines perfdata name =
      .ok ⟨specReportLine "CRITICAL" label name lines perfdata, 2⟩ ∧
    output label 3 lines perfdata name =
      .ok ⟨specReportLine "UNKNOWN" label name lines perfdata, 3⟩ := by
  refine ⟨?_, ?_, ?_, ?_⟩ <;>
  · simp only [output, outputRest, specReportLine,
      show (0:ℤ) ≠ 1 by norm_num, show (0:ℤ) ≠ 2 by norm_num, show (0:ℤ) ≠ 3 by norm_num,
      show (1:ℤ) ≠ 0 by norm_num, show (1:ℤ) ≠ 2 by norm_num, show (1:ℤ) ≠ 3 by norm_num,
      show (2:ℤ) ≠ 0 by norm_num, show (2:ℤ) ≠ 1 by norm_num, show (2:ℤ) ≠ 3 by norm_num,
      show (3:ℤ) ≠ 0 by norm_num, show (3:ℤ) ≠ 1 by norm_num, show (3:ℤ) ≠ 2 by norm_num,
      if_true, if_false, ite_true, ite_false, reduceIte]
    cases lines <;> cases perfdata <;>
      simp only [ne_eq, not_true_eq_false, not_false_eq_true, List.cons_ne_nil,
        if_true, if_false, ite_true, ite_false, reduceCtorEq] <;>
    · refine congrArg Except.ok ?_
      refine congrArg (fun l => Printed.mk l _) ?_
      apply str_ext
      simp only [str_data_append, str_data_nil, List.append_assoc, List.append_nil]

/-- Helper: on a populated result whose first three PEM blocks decode to
certificates with common names, `check` prints the success line — level name
chosen by the threshold evaluation — with the `time_seconds` performance
datum, and exits with the evaluated status. -/
theorem check_success_eq (pemParse : String → List String)
    (load : String → Option Certificate)
    (r b0 b1 b2 : String) (user root ca : Certificate) (ucn rcn cacn : String)
    (now init : ℚ) (w c : ℤ)
    (h0 : (pemParse r).get? 0 = some b0) (h1 : (pemParse r).get? 1 = some b1)
    (h2 : (pemParse r).get? 2 = some b2)
    (hu : load b0 = some user) (hr : load b1 = some root) (hc : load b2 = some ca)
    (hucn : user.subject.CN = some ucn) (hrcn : root.subject.CN = some rcn)
    (hccn : ca.subject.CN = some cacn) :
    check pemParse load (some r) now init w c =
      .exited
        ((if checkStatus (round5 (now - init)) w c = 0 then "OK"
          else if checkStatus (round5 (now - init)) w c = 1 then "WARNING"
          else "CRITICAL") ++
          " - scmd: Certificado emitido para \"" ++ ucn ++
          "\" pela Entidade de Certificação \"" ++ cacn ++
          "\" na hierarquia do \"" ++ rcn ++ "\"" ++
          "|" ++ squote ++ "time_seconds" ++ squote ++ "=" ++
          q5str (round5 (now - init)))
        (checkStatus (round5 (now - init)) w c) := by
  unfold check
  simp only [h0, h1, h2, hu, hr, hc, hucn, hrcn, hccn]
  rcases checkStatus_cases (round5 (now - init)) w c with h | h | h <;>
    rw [h] <;>
  · simp only [pyOutput, output, outputRest,
      show (0:ℤ) ≠ 1 by norm_num, show (0:ℤ) ≠ 2 by norm_num, show (0:ℤ) ≠ 3 by norm_num,
      show (1:ℤ) ≠ 0 by norm_num, show (1:ℤ) ≠ 2 by norm_num, show (1:ℤ) ≠ 3 by norm_num,
      show (2:ℤ) ≠ 0 by norm_num, show (2:ℤ) ≠ 1 by norm_num, show (2:ℤ) ≠ 3 by norm_num,
      if_true, if_false, ite_true, ite_false, reduceIte, ne_eq,
      not_true_eq_false, not_false_eq_true, List.cons_ne_nil, reduceCtorEq]
    refine congrArg (fun l => PyResult.exited l _) ?_
    apply str_ext
    simp only [str_data_append, str_data_nil, List.append_assoc, List.append_nil,
      String.intercalate]
    rfl

/-! ### C3: success line and positional labelling -/

/-- C3: on a populated fetch result whose blocks 0/1/2 decode to the user,
root and ca certificates, `check` prints
`<LEVELNAME> - scmd: Certificado emitido para "<user CN>" pela Entidade de
Certificação "<ca CN>" na hierarquia do "<root CN>"` followed by the
`time_seconds` performance datum; the empty-result CRITICAL line and the
timeout UNKNOWN line are exactly the strings below, which carry no
performance block. -/
theorem c3_success_line (pemParse : String → List String)
    (load : String → Option Certificate)
    (r b0 b1 b2 : String) (user root ca : Certificate) (ucn rcn cacn : String)
    (now init : ℚ) (w c : ℤ) (t : ℤ)
    (h0 : (pemParse r).get? 0 = some b0) (h1 : (pemParse r).get? 1 = some b1)
    (h2 : (pemParse r).get? 2 = some b2)
    (hu : load b0 = some user) (hr : load b1 = some root) (hc : load b2 = some ca)
    (hucn : user.subject.CN = some ucn) (hrcn : root.subject.CN = some rcn)
    (hccn : ca.subject.CN = some cacn) :
    check pemParse load (some r) now init w c =
      .exited
        ((if checkStatus (round5 (now - init)) w c = 0 then "OK"
          else if checkStatus (round5 (now - init)) w c = 1 then "WARNING"
          else "CRITICAL") ++
          " - scmd: Certificado emitido para \"" ++ ucn ++
          "\" pela Entidade de Certificação \"" ++ cacn ++
          "\" na hierarquia do \"" ++ rcn ++ "\"" ++
          "|" ++ squote ++ "time_seconds" ++ squote ++ "=" ++
          q5str (round5 (now - init)))
        (checkStatus (round5 (now - init)) w c) ∧
    check pemParse load none now init w c =
      .exited "CRITICAL - scmd: Impossível obter certificado" 2 ∧
    handle_sigalrm t =
      .exited ("UNKNOWN - scmd: Plugin timed out after " ++ toString t ++ " seconds") 3 :=
  ⟨check_success_eq pemParse load r b0 b1 b2 user root ca ucn rcn cacn now init w c
      h0 h1 h2 hu hr hc hucn hrcn hccn,
   rfl,
   rfl⟩

/-- C3 witness: the spec's example bundle (subjects Jane Doe / ROOT CA /
ISSUING CA, fetch completed at 2 seconds, warning 3, critical 6). -/
theorem c3_success_line_witness :
    check demoParse demoLoad (some "bundle") 2 0 3 6 =
      .exited
        ((if checkStatus (round5 ((2 : ℚ) - 0)) 3 6 = 0 then "OK"
          else if checkStatus (round5 ((2 : ℚ) - 0)) 3 6 = 1 then "WARNING"
          else "CRITICAL") ++
          " - scmd: Certificado emitido para \"" ++ "Jane Doe" ++
          "\" pela Entidade de Certificação \"" ++ "ISSUING CA" ++
          "\" na hierarquia do \"" ++ "ROOT CA" ++ "\"" ++
          "|" ++ squote ++ "time_seconds" ++ squote ++ "=" ++
          q5str (round5 ((2 : ℚ) - 0)))
        (checkStatus (round5 ((2 : ℚ) - 0)) 3 6) ∧
    check demoParse demoLoad none 2 0 3 6 =
      .exited "CRITICAL - scmd: Impossível obter certificado" 2 ∧
    handle_sigalrm 15 =
      .exited ("UNKNOWN - scmd: Plugin timed out after " ++ toString (15 : ℤ) ++ " seconds") 3 :=
  c3_success_line demoParse demoLoad "bundle" "USERPEM" "ROOTPEM" "CAPEM"
    ⟨⟨some "Jane Doe"⟩⟩ ⟨⟨some "ROOT CA"⟩⟩ ⟨⟨some "ISSUING CA"⟩⟩
    "Jane Doe" "ROOT CA" "ISSUING CA" 2 0 3 6 15
    (by decide) (by decide) (by decide) (by decide) (by decide) (by decide)
    rfl rfl rfl

/-! ### C10: status does not depend on certificate contents -/

/-- Helper: whenever `check` on a populated result reaches `sys.exit`, the
state it exits with is exactly the threshold evaluation of the elapsed time —
independently of the parsed certificates. -/
theorem check_exited_state (pemParse : String → List String)
    (load : String → Option Certificate) (r : String) (now init : ℚ) (w c : ℤ)
    (l : String) (s : ℤ)
    (h : check pemParse load (some r) now init w c = .exited l s) :
    s = checkStatus (round5 (now - init)) w c := by
  simp only [check] at h
  rcases hg0 : (pemParse r).get? 0 with _ | b0 <;> simp only [hg0] at h
  · simp at h
  rcases hl0 : load b0 with _ | user <;> simp only [hl0] at h
  · simp at h
  rcases hg2 : (pemParse r).get? 2 with _ | b2 <;> simp only [hg2] at h
  · simp at h
  rcases hl2 : load b2 with _ | ca <;> simp only [hl2] at h
  · simp at h
  rcases hg1 : (pemParse r).get? 1 with _ | b1 <;> simp only [hg1] at h
  · simp at h
  rcases hl1 : load b1 with _ | root <;> simp only [hl1] at h
  · simp at h
  rcases hcnu : user.subject.CN with _ | ucn <;>
    rcases hcnc : ca.subject.CN with _ | cacn <;>
      rcases hcnr : root.subject.CN with _ | rcn <;>
        simp only [hcnu, hcnc, hcnr] at h <;>
          try simp at h
  rcases checkStatus_cases (round5 (now - init)) w c with hs | hs | hs <;>
    rw [hs] at h ⊢ <;>
  · simp only [pyOutput, output, outputRest,
      show (0:ℤ) ≠ 1 by norm_num, show (0:ℤ) ≠ 2 by norm_num, show (0:ℤ) ≠ 3 by norm_num,
      show (1:ℤ) ≠ 0 by norm_num, show (1:ℤ) ≠ 2 by norm_num, show (1:ℤ) ≠ 3 by norm_num,
      show (2:ℤ) ≠ 0 by norm_num, show (2:ℤ) ≠ 1 by norm_num, show (2:ℤ) ≠ 3 by norm_num,
      if_true, if_false, ite_true, ite_false, reduceIte] at h
    injection h with hline hstate
    exact hstate.symm

/-- C10: two runs of `check` that both successfully parse a three-block
bundle and see the same elapsed time and the same thresholds exit with the
same status level, whatever the certificate contents are; that common status
is the threshold evaluation of the elapsed time. -/
theorem c10_status_independent_of_certs
    (P1 P2 : String → List String) (L1 L2 : String → Option Certificate)
    (r1 r2 : String) (now init : ℚ) (w c : ℤ)
    (l1 l2 : String) (s1 s2 : ℤ)
    (h1 : check P1 L1 (some r1) now init w c = .exited l1 s1)
    (h2 : check P2 L2 (some r2) now init w c = .exited l2 s2) :
    s1 = s2 ∧ s1 = checkStatus (round5 (now - init)) w c := by
  have e1 := check_exited_state P1 L1 r1 now init w c l1 s1 h1
  have e2 := check_exited_state P2 L2 r2 now init w c l2 s2 h2
  exact ⟨e1.trans e2.symm, e1⟩

/-- Helper: rounding an integer-valued rational to 5 decimal places leaves it
unchanged. -/
theorem round5_coe_int (k : ℤ) : round5 ((k : ℚ)) = (k : ℚ) := by
  unfold round5
  rw [show ((k : ℚ) * 100000) = (((k * 100000 : ℤ)) : ℚ) by push_cast; ring,
    round_intCast]
  push_cast
  field_simp

/-- Helper: an elapsed time of 4 seconds against warning 3 / critical 6 is
WARNING. -/
theorem checkStatus_four : checkStatus (round5 ((4 : ℚ) - 0)) 3 6 = 1 := by
  rw [show ((4 : ℚ) - 0) = (((4 : ℤ)) : ℚ) by norm_num, round5_coe_int]
  unfold checkStatus
  norm_num

/-! ### C2: the catch-all error path -/

/-- C2 counterexample: for an error with text "connection refused", the guard
prints a line starting with `CRITICAL - scmd: Error:` — not
`UNKNOWN - scmd: Error:` — and the process exit status is 2, not 3. -/
theorem c2_counterexample :
    mainGuard (.raised "connection refused") =
      ("CRITICAL - scmd: Error: connection refused", 2) ∧
    strStarts "UNKNOWN - scmd: Error:" (mainGuard (.raised "connection refused")).1 = false ∧
    (mainGuard (.raised "connection refused")).2 ≠ 3 := by
  decide

/-- C2 amended: every error raised anywhere in the run is caught by the
outermost handler, which prints the single line
`CRITICAL - scmd: Error: <str(exc_info)>` — embedding the error's
description — and exits the process with code 2 (the `SystemExit 2` raised by
the reporting call escapes the guard), never with an unhandled trace. -/
theorem c2_error_report (excInfo : String) :
    mainGuard (.raised excInfo) = ("CRITICAL - scmd: Error: " ++ excInfo, 2) ∧
    strStarts "CRITICAL - scmd: Error:" (mainGuard (.raised excInfo)).1 = true :=
  ⟨rfl, rfl⟩

/-! ### C4: empty fetch result -/

/-- C4 counterexample: the empty-result line is the Portuguese
`CRITICAL - scmd: Impossível obter certificado`, not
`CRITICAL - scmd: Impossible to obtain certificate`, and the process exit
status of that run is 0 (the `SystemExit 2` is swallowed by the guard), not
2. -/
theorem c4_counterexample :
    check demoParse demoLoad none 0 0 3 6 =
      .exited "CRITICAL - scmd: Impossível obter certificado" 2 ∧
    "CRITICAL - scmd: Impossível obter certificado" ≠
      "CRITICAL - scmd: Impossible to obtain certificate" ∧
    mainGuard (check demoParse demoLoad none 0 0 3 6) =
      ("CRITICAL - scmd: Impossível obter certificado", 0) := by
  decide

/-- C4 amended: on an absent fetch result `check` prints exactly
`CRITICAL - scmd: Impossível obter certificado` — with no performance block,
the line contains no `|` — and calls `sys.exit(2)`; the `__main__` guard
swallows that `SystemExit`, so the process exit status is 0. -/
theorem c4_empty_result (pemParse : String → List String)
    (load : String → Option Certificate) (now init : ℚ) (w c : ℤ) :
    check pemParse load none now init w c =
      .exited "CRITICAL - scmd: Impossível obter certificado" 2 ∧
    ("CRITICAL - scmd: Impossível obter certificado").data.contains '|' = false ∧
    mainGuard (check pemParse load none now init w c) =
      ("CRITICAL - scmd: Impossível obter certificado", 0) :=
  ⟨rfl, by decide, rfl⟩

/-! ### C5: the hard deadline -/

/-- C5: with a configured timeout of 10 seconds the deadline is armed at 15
seconds and the handler prints exactly
`UNKNOWN - scmd: Plugin timed out after 15 seconds` (no performance data) with
`sys.exit(3)`; but the `__main__` guard swallows the `SystemExit`, so the
process exit status is 0, not the 3 the claim states. -/
theorem c5_timeout_exit_swallowed :
    alarmSeconds 10 = 15 ∧
    handle_sigalrm (alarmSeconds 10) =
      .exited "UNKNOWN - scmd: Plugin timed out after 15 seconds" 3 ∧
    mainGuard (handle_sigalrm (alarmSeconds 10)) =
      ("UNKNOWN - scmd: Plugin timed out after 15 seconds", 0) := by
  decide

/-! ### C6: process exit codes -/

/-- C6: a completed 4-second fetch against warning 3 / critical 6 makes
`check` print the WARNING line and call `sys.exit` with status 1, but the
`__main__` guard catches the `SystemExit` and passes, so the interpreter
exits with status 0 — the process exit code of a normal run never reflects
the status level (it is 0 for every normal run). -/
theorem c6_exit_code_swallowed :
    check altParse altLoad (some "r") 4 0 3 6 =
      .exited
        ((if checkStatus (round5 ((4 : ℚ) - 0)) 3 6 = 0 then "OK"
          else if checkStatus (round5 ((4 : ℚ) - 0)) 3 6 = 1 then "WARNING"
          else "CRITICAL") ++
          " - scmd: Certificado emitido para \"" ++ "X" ++
          "\" pela Entidade de Certificação \"" ++ "X" ++
          "\" na hierarquia do \"" ++ "X" ++ "\"" ++
          "|" ++ squote ++ "time_seconds" ++ squote ++ "=" ++
          q5str (round5 ((4 : ℚ) - 0)))
        (checkStatus (round5 ((4 : ℚ) - 0)) 3 6) ∧
    checkStatus (round5 ((4 : ℚ) - 0)) 3 6 = 1 ∧
    (mainGuard (check altParse altLoad (some "r") 4 0 3 6)).2 = 0 ∧
    (1 : ℤ) ≠ 0 := by
  have h := check_success_eq altParse altLoad "r" "A" "B" "C"
    ⟨⟨some "X"⟩⟩ ⟨⟨some "X"⟩⟩ ⟨⟨some "X"⟩⟩ "X" "X" "X" 4 0 3 6
    (by decide) (by decide) (by decide) (by decide) (by decide) (by decide)
    rfl rfl rfl
  refine ⟨h, checkStatus_four, ?_, by norm_num⟩
  rw [h]
  rfl

/-! ### C8: what elapsed time is measured -/

/-- C8 counterexample: in a run entered at t = 0 whose fetch call spans
t = 1 to t = 2 and whose `check` samples the clock at t = 3, the reported
`time_seconds` is `round5(tInCheck - tMainStart) = 3`, while the fetch-call
duration the claim describes is `tAfterFetch - tBeforeFetch = 1`. -/
theorem c8_counterexample :
    mainCompleted demoParse demoLoad (some "bundle") (Clock.mk 0 1 2 3) 3 6 =
      .exited
        ((if checkStatus (round5 ((Clock.mk 0 1 2 3).tInCheck -
              (Clock.mk 0 1 2 3).tMainStart)) 3 6 = 0 then "OK"
          else if checkStatus (round5 ((Clock.mk 0 1 2 3).tInCheck -
              (Clock.mk 0 1 2 3).tMainStart)) 3 6 = 1 then "WARNING"
          else "CRITICAL") ++
          " - scmd: Certificado emitido para \"" ++ "Jane Doe" ++
          "\" pela Entidade de Certificação \"" ++ "ISSUING CA" ++
          "\" na hierarquia do \"" ++ "ROOT CA" ++ "\"" ++
          "|" ++ squote ++ "time_seconds" ++ squote ++ "=" ++
          q5str (round5 ((Clock.mk 0 1 2 3).tInCheck - (Clock.mk 0 1 2 3).tMainStart)))
        (checkStatus (round5 ((Clock.mk 0 1 2 3).tInCheck -
          (Clock.mk 0 1 2 3).tMainStart)) 3 6) ∧
    round5 ((Clock.mk 0 1 2 3).tInCheck - (Clock.mk 0 1 2 3).tMainStart) = 3 ∧
    (Clock.mk 0 1 2 3).tAfterFetch - (Clock.mk 0 1 2 3).tBeforeFetch = 1 ∧
    (3 : ℚ) ≠ 1 := by
  refine ⟨check_success_eq demoParse demoLoad "bundle" "USERPEM" "ROOTPEM" "CAPEM"
    ⟨⟨some "Jane Doe"⟩⟩ ⟨⟨some "ROOT CA"⟩⟩ ⟨⟨some "ISSUING CA"⟩⟩
    "Jane Doe" "ROOT CA" "ISSUING CA" 3 0 3 6
    (by decide) (by decide) (by decide) (by decide) (by decide) (by decide)
    rfl rfl rfl, ?_, ?_, by norm_num⟩
  · show round5 ((3 : ℚ) - 0) = 3
    rw [show ((3 : ℚ) - 0) = (((3 : ℤ)) : ℚ) by norm_num, round5_coe_int]
    norm_num
  · show (2 : ℚ) - 1 = 1
    norm_num

/-- C8 amended: the value reported as `time_seconds` on a completed run is
`round(now - init, 5)` where `init` is `time.time()` sampled at the start of
`main` — before argument parsing and before the SOAP client with its WSDL
download are constructed — and `now` is `time.time()` sampled inside `check`
after the certificate chain has been parsed; it is not the duration of the
fetch call alone, and nothing is measured on the empty-result path, which
carries no performance data (nor on the error and timeout paths, cf. the C3
and C5 theorems). -/
theorem c8_elapsed_from_main_start (pemParse : String → List String)
    (load : String → Option Certificate)
    (r b0 b1 b2 : String) (user root ca : Certificate) (ucn rcn cacn : String)
    (clk : Clock) (w c : ℤ)
    (h0 : (pemParse r).get? 0 = some b0) (h1 : (pemParse r).get? 1 = some b1)
    (h2 : (pemParse r).get? 2 = some b2)
    (hu : load b0 = some user) (hr : load b1 = some root) (hc : load b2 = some ca)
    (hucn : user.subject.CN = some ucn) (hrcn : root.subject.CN = some rcn)
    (hccn : ca.subject.CN = some cacn) :
    mainCompleted pemParse load (some r) clk w c =
      .exited
        ((if checkStatus (round5 (clk.tInCheck - clk.tMainStart)) w c = 0 then "OK"
          else if checkStatus (round5 (clk.tInCheck - clk.tMainStart)) w c = 1 then "WARNING"
          else "CRITICAL") ++
          " - scmd: Certificado emitido para \"" ++ ucn ++
          "\" pela Entidade de Certificação \"" ++ cacn ++
          "\" na hierarquia do \"" ++ rcn ++ "\"" ++
          "|" ++ squote ++ "time_seconds" ++ squote ++ "=" ++
          q5str (round5 (clk.tInCheck - clk.tMainStart)))
        (checkStatus (round5 (clk.tInCheck - clk.tMainStart)) w c) ∧
    mainCompleted pemParse load none clk w c =
      .exited "CRITICAL - scmd: Impossível obter certificado" 2 :=
  ⟨check_success_eq pemParse load r b0 b1 b2 user root ca ucn rcn cacn
      clk.tInCheck clk.tMainStart w c h0 h1 h2 hu hr hc hucn hrcn hccn,
   rfl⟩

/-- C8 witness: a concrete completed run with main entered at t = 5, the
fetch spanning t = 6 to t = 7, and the sample in `check` at t = 9. -/
theorem c8_elapsed_from_main_start_witness :
    mainCompleted demoParse demoLoad (some "bundle") (Clock.mk 5 6 7 9) 3 6 =
      .exited
        ((if checkStatus (round5 ((Clock.mk 5 6 7 9).tInCheck -
              (Clock.mk 5 6 7 9).tMainStart)) 3 6 = 0 then "OK"
          else if checkStatus (round5 ((Clock.mk 5 6 7 9).tInCheck -
              (Clock.mk 5 6 7 9).tMainStart)) 3 6 = 1 then "WARNING"
          else "CRITICAL") ++
          " - scmd: Certificado emitido para \"" ++ "Jane Doe" ++
          "\" pela Entidade de Certificação \"" ++ "ISSUING CA" ++
          "\" na hierarquia do \"" ++ "ROOT CA" ++ "\"" ++
          "|" ++ squote ++ "time_seconds" ++ squote ++ "=" ++
          q5str (round5 ((Clock.mk 5 6 7 9).tInCheck - (Clock.mk 5 6 7 9).tMainStart)))
        (checkStatus (round5 ((Clock.mk 5 6 7 9).tInCheck -
          (Clock.mk 5 6 7 9).tMainStart)) 3 6) ∧
    mainCompleted demoParse demoLoad none (Clock.mk 5 6 7 9) 3 6 =
      .exited "CRITICAL - scmd: Impossível obter certificado" 2 :=
  c8_elapsed_from_main_start demoParse demoLoad "bundle" "USERPEM" "ROOTPEM" "CAPEM"
    ⟨⟨some "Jane Doe"⟩⟩ ⟨⟨some "ROOT CA"⟩⟩ ⟨⟨some "ISSUING CA"⟩⟩
    "Jane Doe" "ROOT CA" "ISSUING CA" (Clock.mk 5 6 7 9) 3 6
    (by decide) (by decide) (by decide) (by decide) (by decide) (by decide)
    rfl rfl rfl

/-- C10 witness: two completed 4-second runs — one with subjects Jane Doe /
ROOT CA / ISSUING CA, one with three certificates all named X — get the same
status, the threshold evaluation WARNING. -/
theorem c10_status_independent_of_certs_witness :
    (1 : ℤ) = 1 ∧ (1 : ℤ) = checkStatus (round5 ((4 : ℚ) - 0)) 3 6 := by
  have ha := check_success_eq demoParse demoLoad "b1" "USERPEM" "ROOTPEM" "CAPEM"
    ⟨⟨some "Jane Doe"⟩⟩ ⟨⟨some "ROOT CA"⟩⟩ ⟨⟨some "ISSUING CA"⟩⟩
    "Jane Doe" "ROOT CA" "ISSUING CA" 4 0 3 6
    (by decide) (by decide) (by decide) (by decide) (by decide) (by decide)
    rfl rfl rfl
  have hb := check_success_eq altParse altLoad "b2" "A" "B" "C"
    ⟨⟨some "X"⟩⟩ ⟨⟨some "X"⟩⟩ ⟨⟨some "X"⟩⟩ "X" "X" "X" 4 0 3 6
    (by decide) (by decide) (by decide) (by decide) (by decide) (by decide)
    rfl rfl rfl
  rw [checkStatus_four] at ha hb
  have h := c10_status_independent_of_certs demoParse altParse demoLoad altLoad
    "b1" "b2" 4 0 3 6 _ _ 1 1 ha hb
  exact ⟨h.1, h.2⟩
